import Mathlib

/-!
Verification of the humbldata Fetcher TET (Transform-Extract-Transform)
pipeline, as implemented in
`src/humbldata/core/standard_models/toolbox/technical/momentum.py`,
`src/humbldata/core/standard_models/toolbox/technical/mandelbrot_channel.py`
and `src/humbldata/core/standard_models/portfolio/__init__.py`.

The embedding is shallow: Python objects become Lean structures, stateful
methods become functions from a fetcher-state structure to `Except Exc` of
an updated state, and external collaborators (the OpenBB provider call and
the numeric calculation kernels, which the spec declares out of scope)
are parameters of the pipeline functions.
-/

namespace Humbl

/-- Python exceptions that can arise in the modelled code paths.  Each
constructor corresponds to a concrete Python exception class; the
`extractionError` constructor exists only to state the error taxonomy the
spec names (no such wrapping occurs anywhere in the source). -/
inductive Exc where
  | validationError (msg : String)
  | typeError (msg : String)
  | attributeError (msg : String)
  | nameError (msg : String)
  | humblDataError (msg : String)
  | valueError (msg : String)
  | schemaError (msg : String)
  | extractionError (msg : String)
  | providerError (msg : String)
  | kernelError (msg : String)
deriving DecidableEq, Repr

/-- A cell value of a Polars table.  Dates, strings and numbers cover the
columns the modelled schemas declare; `null` models Python `None`. -/
inductive Value where
  | date (d : Nat)
  | str (s : String)
  | num (n : Int)
  | null
deriving DecidableEq, Repr

/-- A row of a Polars DataFrame: an ordered association of column names to
cell values. -/
abbrev Row := List (String × Value)

/-- A Polars DataFrame (or LazyFrame, collected): a list of rows. -/
abbrev Table := List Row

/-- Look up a column value in a row by column name. -/
def lookupCol : Row → String → Option Value
  | [], _ => none
  | (c, v) :: rest, name => if c = name then some v else lookupCol rest name

/-- Polars `with_columns(name=pl.lit v)`: replace the column if present,
otherwise append it. -/
def setColumn (name : String) (v : Value) (r : Row) : Row :=
  if r.any (fun p => p.1 = name) then
    r.map (fun p => if p.1 = name then (name, v) else p)
  else
    r ++ [(name, v)]

/-- Polars `.drop(cols)` applied to one row: remove the named columns. -/
def dropColumns (cols : List String) (r : Row) : Row :=
  r.filter (fun p => ¬ cols.contains p.1)

/-- Modelled from the spec: `ToolboxQueryParams` (the ContextParameters) is
not under `src/`; per the spec it carries a non-empty collection of
uppercase ticker strings, a provider identifier, optional start/end dates
and an append-only ordered warning sequence.  `momentum.py` reads the
symbol collection as `.symbols` and `mandelbrot_channel.py` as `.symbol`;
both names denote this one field. -/
structure ToolboxQueryParams where
  symbols : List String
  provider : String
  start_date : Option String
  end_date : Option String
  warnings : List String
deriving DecidableEq, Repr

/-- The external provider capability `obb.equity.price.historical`
(collaborator, out of scope): symbols, start date, end date, provider id
to a table, or a raised exception. -/
abbrev ProviderFn :=
  List String → Option String → Option String → String → Except Exc Table

/-! ## Momentum command parameters (`MomentumQueryParams`) -/

/-- The validated `MomentumQueryParams` pydantic model: `method` a literal
of `log`, `simple`, `shift` (default `log`) and `period` an integer with
`ge=1` (default `1`). -/
structure MomentumQueryParams where
  method : String
  period : Int
deriving DecidableEq, Repr

/-- Default-constructed `MomentumQueryParams()`. -/
def momentumDefaults : MomentumQueryParams := { method := "log", period := 1 }

/-- The closed enumeration of the `method` literal field. -/
def momentumMethods : List String := ["log", "simple", "shift"]

/-- A raw keyword mapping for `MomentumQueryParams(**mapping)`: each field
either absent (use the declared default) or supplied. -/
structure MomentumParamsMap where
  method : Option String
  period : Option Int
deriving DecidableEq, Repr

/-- Python truthiness of the mapping: an empty dict is falsy. -/
def MomentumParamsMap.isEmpty (m : MomentumParamsMap) : Bool :=
  m.method.isNone && m.period.isNone

/-- What a `MomentumFetcher` can hold in its `command_params` attribute:
`None`, a raw keyword mapping, or an already-constructed
`MomentumQueryParams` model instance. -/
inductive MomentumParamsInput where
  | noneI
  | mapping (m : MomentumParamsMap)
  | model (p : MomentumQueryParams)
deriving DecidableEq, Repr

/-- Pydantic construction `MomentumQueryParams(**m)`: apply defaults, check
the `method` literal and the `period >= 1` bound, raising
`ValidationError` on violation. -/
def MomentumQueryParams.validate (m : MomentumParamsMap) :
    Except Exc MomentumQueryParams :=
  let method := m.method.getD "log"
  let period := m.period.getD 1
  if method ∈ momentumMethods then
    if 1 ≤ period then
      .ok { method := method, period := period }
    else
      .error (.validationError "period: Input should be greater than or equal to 1")
  else
    .error (.validationError "method: Input should be log, simple or shift")

/-- The mutable attribute state of a `MomentumFetcher` instance.
`equity_historical_data` and `transformed_data` are unset before their
stages run; they default to the empty table here. -/
structure MState where
  context_params : ToolboxQueryParams
  command_params : MomentumParamsInput
  warnings : List String
  extra : List (String × Value)
  chart : Option Unit
  equity_historical_data : Table
  transformed_data : Table
deriving DecidableEq, Repr

/-- `MomentumFetcher.__init__`: stores the two parameter objects and sets
`warnings = []`, `extra = {}`, `chart = None`. -/
def momentumInit (ctx : ToolboxQueryParams) (cmd : MomentumParamsInput) : MState :=
  { context_params := ctx
    command_params := cmd
    warnings := []
    extra := []
    chart := none
    equity_historical_data := []
    transformed_data := [] }

/-- `MomentumFetcher.transform_query`: a falsy `command_params` (None or
empty dict) is replaced by the default model; a truthy mapping is unpacked
into the validating constructor; a truthy model instance makes the `**`
unpacking itself raise `TypeError` (pydantic models are not mappings). -/
def momentumTransformQuery (s : MState) : Except Exc MState :=
  match s.command_params with
  | .noneI => .ok { s with command_params := .model momentumDefaults }
  | .mapping m =>
      if m.isEmpty then
        .ok { s with command_params := .model momentumDefaults }
      else
        match MomentumQueryParams.validate m with
        | .ok p => .ok { s with command_params := .model p }
        | .error e => .error e
  | .model _ =>
      .error (.typeError "argument of type MomentumQueryParams is not a mapping")

/-- `MomentumFetcher.extract_data`: call the provider with the context
symbols, dates and provider id; when exactly one symbol was requested,
inject a literal `symbol` column; no exception handling. -/
def momentumExtractData (prov : ProviderFn) (s : MState) : Except Exc MState :=
  match prov s.context_params.symbols s.context_params.start_date
      s.context_params.end_date s.context_params.provider with
  | .error e => .error e
  | .ok tbl =>
      let tbl' :=
        match s.context_params.symbols with
        | [sym] => tbl.map (setColumn "symbol" (Value.str sym))
        | _ => tbl
      .ok { s with equity_historical_data := tbl' }

/-- The momentum calculation kernel `momentum(data, method, period)`
followed by `.collect()` (collaborator, out of scope). -/
abbrev MomentumKernel := Table → String → Int → Except Exc Table

/-- Insert-or-replace a key in a Python dict modelled as an ordered
association list (`dict.update` semantics for one key). -/
def setKey (m : List (String × Value)) (k : String) (v : Value) :
    List (String × Value) :=
  if m.any (fun p => p.1 = k) then
    m.map (fun p => if p.1 = k then (k, v) else p)
  else
    m ++ [(k, v)]

/-- `MomentumFetcher.transform_data`: inside `try`, update `extra` with the
hard-coded entries `calculation_method = "log"` and `period = 1`, then run
the kernel on the extracted data with the command parameters.  The
`except` block executes `raise HumblDataError(...) from e`, but
`HumblDataError` is never imported in `momentum.py`, so evaluating the
name raises `NameError` instead; accessing `.method` on a non-model
`command_params` is likewise caught and ends in the same `NameError`. -/
def momentumTransformData (kern : MomentumKernel) (s : MState) :
    Except Exc MState :=
  let s' := { s with
    extra := setKey (setKey s.extra "calculation_method" (Value.str "log"))
      "period" (Value.num 1) }
  match s'.command_params with
  | .model p =>
      match kern s'.equity_historical_data p.method p.period with
      | .ok t => .ok { s' with transformed_data := t }
      | .error _ => .error (.nameError "name HumblDataError is not defined")
  | _ => .error (.nameError "name HumblDataError is not defined")

/-- The `HumblObject` response envelope, generic over the type stored in
its `command_params` provenance field. -/
structure HumblObject (C : Type) where
  results : Table
  provider : String
  warnings : Option (List String)
  chart : Option Unit
  context_params : ToolboxQueryParams
  command_params : C
  extra : List (String × Value)
deriving DecidableEq, Repr

/-- `MomentumFetcher.fetch_data`: run the three stages in order, then build
`all_warnings = context_params.warnings + self.warnings` (Python list
concatenation: a fresh list, the context sequence is not mutated) and
construct the `HumblObject`.  The `hasattr` guards in the source are
no-ops here because every attribute exists. -/
def momentumFetchData (prov : ProviderFn) (kern : MomentumKernel)
    (s0 : MState) : Except Exc (HumblObject MomentumParamsInput) :=
  match momentumTransformQuery s0 with
  | .error e => .error e
  | .ok s1 =>
      match momentumExtractData prov s1 with
      | .error e => .error e
      | .ok s2 =>
          match momentumTransformData kern s2 with
          | .error e => .error e
          | .ok s3 =>
              .ok { results := s3.transformed_data
                    provider := s3.context_params.provider
                    warnings := some (s3.context_params.warnings ++ s3.warnings)
                    chart := s3.chart
                    context_params := s3.context_params
                    command_params := s3.command_params
                    extra := s3.extra }

/-! ## Mandelbrot Channel command parameters (`MandelbrotChannelQueryParams`) -/

/-- Modelled from the spec: the window-string canonicalizer
`humbldata.toolbox.toolbox_helpers._window_format` is not under `src/`.
Per the spec it maps shorthand period tokens (day/week/month/year
abbreviations and numeric multiples) into one canonical textual form and
is idempotent on canonical strings; an unrecognized unit is a hard
validation failure (`ValueError` inside the pydantic validator). -/
def windowUnitCanon : String → Option String
  | "d" => some "d"
  | "day" => some "d"
  | "days" => some "d"
  | "w" => some "w"
  | "week" => some "w"
  | "weeks" => some "w"
  | "m" => some "mo"
  | "mo" => some "mo"
  | "month" => some "mo"
  | "months" => some "mo"
  | "y" => some "y"
  | "year" => some "y"
  | "years" => some "y"
  | _ => none

/-- Modelled from the spec: split a window string into its leading numeric
multiple (defaulting to 1) and its unit token, and rebuild it with the
canonical unit. -/
def windowFormat (s : String) : Except Exc String :=
  let cs := s.toList
  let num := cs.takeWhile Char.isDigit
  let unit := cs.dropWhile Char.isDigit
  let n := if num = [] then "1" else String.mk num
  match windowUnitCanon (String.mk unit) with
  | some u => .ok (n ++ u)
  | none => .error (.validationError "window: invalid window unit")

/-- The validated `MandelbrotChannelQueryParams` pydantic model. -/
structure MandelbrotChannelQueryParams where
  window : String
  rv_adjustment : Bool
  rv_method : String
  rs_method : String
  rv_grouped_mean : Bool
  live_price : Bool
deriving DecidableEq, Repr

/-- The closed enumeration of the `rv_method` literal field. -/
def rvMethods : List String :=
  ["std", "parkinson", "garman_klass", "gk", "hodges_tompkins", "ht",
   "rogers_satchell", "rs", "yang_zhang", "yz", "squared_returns", "sq"]

/-- The closed enumeration of the `rs_method` literal field. -/
def rsMethods : List String := ["RS", "RS_min", "RS_max", "RS_mean"]

/-- Default-constructed `MandelbrotChannelQueryParams()`.  The default
window `"1mo"` is not passed through the field validator (pydantic does
not validate defaults), but it is already canonical. -/
def mandelbrotDefaults : MandelbrotChannelQueryParams :=
  { window := "1mo"
    rv_adjustment := true
    rv_method := "std"
    rs_method := "RS"
    rv_grouped_mean := false
    live_price := false }

/-- A raw keyword mapping for `MandelbrotChannelQueryParams(**mapping)`. -/
structure MandelbrotParamsMap where
  window : Option String
  rv_adjustment : Option Bool
  rv_method : Option String
  rs_method : Option String
  rv_grouped_mean : Option Bool
  live_price : Option Bool
deriving DecidableEq, Repr

/-- Python truthiness of the mapping: an empty dict is falsy. -/
def MandelbrotParamsMap.isEmpty (m : MandelbrotParamsMap) : Bool :=
  m.window.isNone && m.rv_adjustment.isNone && m.rv_method.isNone &&
  m.rs_method.isNone && m.rv_grouped_mean.isNone && m.live_price.isNone

/-- What a `MandelbrotChannelFetcher` can hold in its `command_params`
attribute. -/
inductive MandelbrotParamsInput where
  | noneI
  | mapping (m : MandelbrotParamsMap)
  | model (p : MandelbrotChannelQueryParams)
deriving DecidableEq, Repr

/-- Pydantic construction `MandelbrotChannelQueryParams(**m)`: apply
defaults, run the `window` field validator (canonicalization) on supplied
values, and check the literal enumerations. -/
def MandelbrotChannelQueryParams.validate (m : MandelbrotParamsMap) :
    Except Exc MandelbrotChannelQueryParams :=
  match (match m.window with
         | none => Except.ok "1mo"
         | some w => windowFormat w) with
  | .error e => .error e
  | .ok window =>
      let rv_method := m.rv_method.getD "std"
      let rs_method := m.rs_method.getD "RS"
      if rv_method ∈ rvMethods then
        if rs_method ∈ rsMethods then
          .ok { window := window
                rv_adjustment := m.rv_adjustment.getD true
                rv_method := rv_method
                rs_method := rs_method
                rv_grouped_mean := m.rv_grouped_mean.getD false
                live_price := m.live_price.getD false }
        else
          .error (.validationError "rs_method: Input should be RS, RS_min, RS_max or RS_mean")
      else
        .error (.validationError "rv_method: Input should be a supported realized volatility method")

/-- The mutable attribute state of a `MandelbrotChannelFetcher` instance.
Its `__init__` stores only the parameter objects (no `warnings`, `extra`
or `chart` attribute exists on this fetcher);
`equity_historical_data` is assigned inside `fetch_data`. -/
structure CState where
  context_params : ToolboxQueryParams
  command_params : MandelbrotParamsInput
  equity_historical_data : Table
deriving DecidableEq, Repr

/-- `MandelbrotChannelFetcher.__init__`. -/
def mandelbrotInit (ctx : ToolboxQueryParams) (cmd : MandelbrotParamsInput) :
    CState :=
  { context_params := ctx, command_params := cmd, equity_historical_data := [] }

/-- `MandelbrotChannelFetcher.transform_query`: same shape as the momentum
stage — falsy input yields the default model, a mapping is re-validated,
a model instance fails the `**` unpacking with `TypeError`. -/
def mandelbrotTransformQuery (s : CState) : Except Exc CState :=
  match s.command_params with
  | .noneI => .ok { s with command_params := .model mandelbrotDefaults }
  | .mapping m =>
      if m.isEmpty then
        .ok { s with command_params := .model mandelbrotDefaults }
      else
        match MandelbrotChannelQueryParams.validate m with
        | .ok p => .ok { s with command_params := .model p }
        | .error e => .error e
  | .model _ =>
      .error (.typeError "argument of type MandelbrotChannelQueryParams is not a mapping")

/-- `MandelbrotChannelFetcher.extract_data`: call the provider, drop the
`dividends` and `stock_splits` columns, inject a literal `symbol` column
in the single-symbol case, and return the table (the source returns it
rather than storing it); no exception handling. -/
def mandelbrotExtractData (prov : ProviderFn) (s : CState) : Except Exc Table :=
  match prov s.context_params.symbols s.context_params.start_date
      s.context_params.end_date s.context_params.provider with
  | .error e => .error e
  | .ok tbl =>
      let tbl' := tbl.map (dropColumns ["dividends", "stock_splits"])
      let tbl'' :=
        match s.context_params.symbols with
        | [sym] => tbl'.map (setColumn "symbol" (Value.str sym))
        | _ => tbl'
      .ok tbl''

/-- The `calc_mandelbrot_channel` kernel (collaborator, out of scope):
table, window, rv_adjustment, rv_method, rv_grouped_mean, rs_method,
live_price. -/
abbrev MandelbrotKernel :=
  Table → String → Bool → String → Bool → String → Bool → Except Exc Table

/-- `MandelbrotChannelFetcher.transform_data`: call the kernel with the
command-parameter fields; there is no `try` block, so a kernel exception
propagates unwrapped.  Accessing `.window` on a non-model
`command_params` raises `AttributeError`. -/
def mandelbrotTransformData (kern : MandelbrotKernel) (s : CState) :
    Except Exc Table :=
  match s.command_params with
  | .model p =>
      kern s.equity_historical_data p.window p.rv_adjustment p.rv_method
        p.rv_grouped_mean p.rs_method p.live_price
  | _ => .error (.attributeError "command_params object has no attribute window")

/-! ## Pandera DataModel schema validation -/

/-- The semantic type a DataModel column declares. -/
inductive ColType where
  | dateT
  | strT
  | numT
deriving DecidableEq, Repr

/-- Does a cell value inhabit a declared column type?  Fields are declared
with `default=None`, so nulls are admitted. -/
def valueMatches : Value → ColType → Bool
  | .date _, .dateT => true
  | .str _, .strT => true
  | .num _, .numT => true
  | .null, _ => true
  | _, _ => false

/-- The `MandelbrotChannelData` schema: date, symbol and the three channel
price columns. -/
def mandelbrotSchema : List (String × ColType) :=
  [("date", .dateT), ("symbol", .strT), ("bottom_price", .numT),
   ("recent_price", .numT), ("top_price", .numT)]

/-- The `MomentumData` schema as declared in `momentum.py`: a single
`example_column` date field. -/
def momentumSchema : List (String × ColType) :=
  [("example_column", .dateT)]

/-- Does one row satisfy a declared schema: every declared column present
with a matching value, and no unknown column. -/
def rowConforms (schema : List (String × ColType)) (r : Row) : Bool :=
  (schema.all (fun ct =>
    match lookupCol r ct.1 with
    | some v => valueMatches v ct.2
    | none => false)) &&
  (r.all (fun cv => schema.any (fun ct => ct.1 = cv.1)))

/-- Modelled from the spec: the pandera validation performed by
`MandelbrotChannelData(...).serialize()` (the `Data` base class and
pandera live outside `src/`).  Per the spec, every row must satisfy the
declared schema or validation fails; an unknown or missing column is a
hard error, not a silent drop. -/
def validateTable (schema : List (String × ColType)) (t : Table) :
    Except Exc Table :=
  if t.all (rowConforms schema) then .ok t
  else .error (.schemaError "DataModel schema validation failed")

/-- `MandelbrotChannelFetcher.fetch_data`: run transform_query, store the
extracted table, validate the transformed table against
`MandelbrotChannelData`, and construct the `HumblObject` with
`warnings=None` and `chart=None` (and no `extra` argument). -/
def mandelbrotFetchData (prov : ProviderFn) (kern : MandelbrotKernel)
    (s0 : CState) : Except Exc (HumblObject MandelbrotParamsInput) :=
  match mandelbrotTransformQuery s0 with
  | .error e => .error e
  | .ok s1 =>
      match mandelbrotExtractData prov s1 with
      | .error e => .error e
      | .ok tbl =>
          let s2 := { s1 with equity_historical_data := tbl }
          match mandelbrotTransformData kern s2 with
          | .error e => .error e
          | .ok t =>
              match validateTable mandelbrotSchema t with
              | .error e => .error e
              | .ok validated =>
                  .ok { results := validated
                        provider := s2.context_params.provider
                        warnings := none
                        chart := none
                        context_params := s2.context_params
                        command_params := s2.command_params
                        extra := [] }

/-! ## Portfolio symbol normalization (`PortfolioQueryParams.upper_symbol`) -/

/-- A Python value that can appear in a symbol collection: a string or a
non-string (represented by an integer). -/
inductive PyVal where
  | str (s : String)
  | int (n : Int)
deriving DecidableEq, Repr

/-- The two input forms `upper_symbol` accepts: a comma-separated string
or a collection of elements. -/
inductive SymbolInput where
  | str (s : String)
  | list (l : List PyVal)
deriving DecidableEq, Repr

/-- ASCII whitespace, as Python `str.strip()` removes it. -/
def isSpaceChar (c : Char) : Bool :=
  c = ' ' || c = '\t' || c = '\n' || c = '\r'

/-- Python `str.strip()` on the character list: drop leading and trailing
whitespace. -/
def trimChars (cs : List Char) : List Char :=
  ((cs.dropWhile isSpaceChar).reverse.dropWhile isSpaceChar).reverse

/-- Python `str.strip()`. -/
def pyStripStr (s : String) : String := String.mk (trimChars s.toList)

/-- Python `str.upper()` (ASCII, as ticker symbols are ASCII). -/
def pyUpper (s : String) : String := String.mk (s.toList.map Char.toUpper)

/-- Python `s.split(",")`: split on every comma, keeping empty pieces. -/
def splitCommaAux : List Char → List Char → List String
  | [], acc => [String.mk acc.reverse]
  | c :: rest, acc =>
      if c = ',' then String.mk acc.reverse :: splitCommaAux rest []
      else splitCommaAux rest (c :: acc)

/-- Python `s.split(",")`. -/
def splitComma (s : String) : List String := splitCommaAux s.toList []

/-- Python `item.strip()`: trims whitespace on a string, raises
`AttributeError` on a non-string. -/
def pyStrip : PyVal → Except Exc String
  | .str s => .ok (pyStripStr s)
  | .int _ => .error (.attributeError "int object has no attribute strip")

/-- `PortfolioQueryParams.upper_symbol`: split a comma string into a list,
evaluate `all(isinstance(item.strip(), str) for item in v)` — whose
`isinstance` test can never be false because `str.strip()` always returns
a string, while a non-string element raises `AttributeError` from
`.strip()` before the test — then return the stripped, upper-cased
elements.  The declared
`ValueError("Every element in symbol list must be a str")` is
unreachable. -/
def upper_symbol (v : SymbolInput) : Except Exc (List String) :=
  let l := match v with
    | .str s => (splitComma s).map PyVal.str
    | .list l => l
  match l.mapM pyStrip with
  | .error e => .error e
  | .ok _ =>
      match l.mapM (fun item =>
          match pyStrip item with
          | .ok s => Except.ok (pyUpper s)
          | .error e => Except.error e) with
      | .error e => .error e
      | .ok out => .ok out

/-! ## Concrete fixtures used by witnesses and counterexamples -/

/-- A session context with one symbol and two accumulated warnings. -/
def ctxSingle : ToolboxQueryParams :=
  { symbols := ["AAPL"], provider := "yfinance", start_date := none,
    end_date := none, warnings := ["A", "B"] }

/-- A session context with two symbols. -/
def ctxMulti : ToolboxQueryParams :=
  { symbols := ["AAPL", "MSFT"], provider := "yfinance", start_date := none,
    end_date := none, warnings := [] }

/-- A provider row as returned by `obb.equity.price.historical`. -/
def rawRow : Row :=
  [("date", Value.date 1), ("close", Value.num 100),
   ("dividends", Value.num 0), ("stock_splits", Value.num 0)]

/-- A provider that succeeds with one raw row. -/
def provOk : ProviderFn := fun _ _ _ _ => .ok [rawRow]

/-- A provider whose call raises. -/
def provFail : ProviderFn := fun _ _ _ _ => .error (.providerError "network down")

/-- A momentum-kernel output row that violates the `MomentumData` schema
(unknown column, missing `example_column`). -/
def momRowBad : Row := [("foo", Value.null)]

/-- A momentum kernel that succeeds with a schema-violating row. -/
def kernMomBad : MomentumKernel := fun _ _ _ => .ok [momRowBad]

/-- A momentum kernel that raises. -/
def kernMomFail : MomentumKernel := fun _ _ _ => .error (.kernelError "boom")

/-- A kernel output row satisfying the `MandelbrotChannelData` schema. -/
def chanRowGood : Row :=
  [("date", Value.date 1), ("symbol", Value.str "AAPL"),
   ("bottom_price", Value.num 90), ("recent_price", Value.num 100),
   ("top_price", Value.num 110)]

/-- A channel kernel that succeeds with a schema-conforming row. -/
def kernChanOk : MandelbrotKernel := fun _ _ _ _ _ _ _ => .ok [chanRowGood]

/-- A channel kernel that raises. -/
def kernChanFail : MandelbrotKernel :=
  fun _ _ _ _ _ _ _ => .error (.kernelError "boom")

/-! ## Stage lemmas -/

theorem momentumTransformQuery_preserves {s s' : MState}
    (h : momentumTransformQuery s = Except.ok s') :
    s'.context_params = s.context_params ∧ s'.warnings = s.warnings ∧
    s'.extra = s.extra ∧ s'.chart = s.chart := by
  unfold momentumTransformQuery at h
  split at h
  · cases h; exact ⟨rfl, rfl, rfl, rfl⟩
  · split at h
    · cases h; exact ⟨rfl, rfl, rfl, rfl⟩
    · split at h
      · cases h; exact ⟨rfl, rfl, rfl, rfl⟩
      · cases h
  · cases h

theorem momentumTransformQuery_model {s s' : MState}
    (h : momentumTransformQuery s = Except.ok s') :
    ∃ p, s'.command_params = .model p := by
  unfold momentumTransformQuery at h
  split at h
  · cases h; exact ⟨momentumDefaults, rfl⟩
  · split at h
    · cases h; exact ⟨momentumDefaults, rfl⟩
    · split at h
      · cases h
        next p _ => exact ⟨p, rfl⟩
      · cases h
  · cases h

theorem momentumExtractData_preserves {prov : ProviderFn} {s s' : MState}
    (h : momentumExtractData prov s = Except.ok s') :
    s'.context_params = s.context_params ∧
    s'.command_params = s.command_params ∧
    s'.warnings = s.warnings ∧ s'.extra = s.extra ∧ s'.chart = s.chart := by
  unfold momentumExtractData at h
  split at h
  · cases h
  · cases h; exact ⟨rfl, rfl, rfl, rfl, rfl⟩

theorem momentumTransformData_preserves {kern : MomentumKernel} {s s' : MState}
    (h : momentumTransformData kern s = Except.ok s') :
    s'.context_params = s.context_params ∧
    s'.command_params = s.command_params ∧
    s'.warnings = s.warnings ∧ s'.chart = s.chart ∧
    s'.extra = setKey (setKey s.extra "calculation_method" (Value.str "log"))
      "period" (Value.num 1) := by
  simp only [momentumTransformData] at h
  split at h
  · split at h
    · cases h; exact ⟨rfl, rfl, rfl, rfl, rfl⟩
    · cases h
  · cases h

theorem lookupCol_of_any_map {name : String} {v : Value} :
    ∀ r : Row, r.any (fun p => p.1 = name) = true →
    lookupCol (r.map (fun p => if p.1 = name then (name, v) else p)) name
      = some v := by
  intro r h
  induction r with
  | nil => simp at h
  | cons p rest ih =>
      rw [List.any_cons, Bool.or_eq_true] at h
      simp only [List.map_cons]
      by_cases hp : p.1 = name
      · simp only [if_pos hp]
        simp [lookupCol]
      · simp only [if_neg hp]
        have hrest : rest.any (fun q => q.1 = name) = true := by
          cases h with
          | inl h1 => exact absurd (of_decide_eq_true h1) hp
          | inr h2 => exact h2
        simp [lookupCol, hp, ih hrest]

theorem lookupCol_of_not_any_append {name : String} {v : Value} :
    ∀ r : Row, r.any (fun p => p.1 = name) = false →
    lookupCol (r ++ [(name, v)]) name = some v := by
  intro r h
  induction r with
  | nil => simp [lookupCol]
  | cons p rest ih =>
      rw [List.any_cons, Bool.or_eq_false_iff] at h
      have hp : ¬ p.1 = name := by simpa using h.1
      simp [lookupCol, hp, ih h.2]

/-- Injecting a column always makes it readable back with the injected
value. -/
theorem lookupCol_setColumn (name : String) (v : Value) (r : Row) :
    lookupCol (setColumn name v r) name = some v := by
  unfold setColumn
  split
  next h => exact lookupCol_of_any_map r h
  next h =>
    rw [Bool.not_eq_true] at h
    exact lookupCol_of_not_any_append r h

/-- The invariant pydantic guarantees for a constructed
`MomentumQueryParams` instance. -/
def MomentumQueryParams.Valid (p : MomentumQueryParams) : Prop :=
  p.method ∈ momentumMethods ∧ 1 ≤ p.period

/-- The invariant pydantic guarantees for a constructed
`MandelbrotChannelQueryParams` instance: literal fields in their
enumerations and a window produced by the canonicalizer. -/
def MandelbrotChannelQueryParams.Valid (p : MandelbrotChannelQueryParams) : Prop :=
  p.rv_method ∈ rvMethods ∧ p.rs_method ∈ rsMethods ∧
  ∃ w, windowFormat w = Except.ok p.window

theorem momentumDefaults_valid : momentumDefaults.Valid := by
  constructor <;> simp [momentumDefaults, momentumMethods]

theorem mandelbrotDefaults_valid : mandelbrotDefaults.Valid := by
  refine ⟨by simp [mandelbrotDefaults, rvMethods],
    by simp [mandelbrotDefaults, rsMethods], ⟨"1mo", by rfl⟩⟩

theorem momentum_validate_valid {m : MomentumParamsMap}
    {p : MomentumQueryParams}
    (h : MomentumQueryParams.validate m = Except.ok p) : p.Valid := by
  simp only [MomentumQueryParams.validate] at h
  split at h
  · split at h
    · cases h
      next hmeth hper => exact ⟨hmeth, hper⟩
    · cases h
  · cases h

theorem mandelbrot_validate_valid {m : MandelbrotParamsMap}
    {p : MandelbrotChannelQueryParams}
    (h : MandelbrotChannelQueryParams.validate m = Except.ok p) : p.Valid := by
  simp only [MandelbrotChannelQueryParams.validate] at h
  split at h
  · cases h
  · rename_i window hw
    split at h
    · split at h
      · cases h
        next hrv hrs =>
          refine ⟨hrv, hrs, ?_⟩
          cases hmw : m.window with
          | none => rw [hmw] at hw; cases hw; exact ⟨"1mo", rfl⟩
          | some w0 => rw [hmw] at hw; exact ⟨w0, hw⟩
      · cases h
    · cases h

theorem mandelbrotTransformQuery_preserves {s s' : CState}
    (h : mandelbrotTransformQuery s = Except.ok s') :
    s'.context_params = s.context_params := by
  unfold mandelbrotTransformQuery at h
  split at h
  · cases h; rfl
  · split at h
    · cases h; rfl
    · split at h
      · cases h; rfl
      · cases h
  · cases h

/-- What a successful momentum `fetch_data` guarantees about the envelope,
in terms of the fetcher state it started from. -/
theorem momentumFetchData_ok {prov : ProviderFn} {kern : MomentumKernel}
    {s0 : MState} {env : HumblObject MomentumParamsInput}
    (h : momentumFetchData prov kern s0 = Except.ok env) :
    env.context_params = s0.context_params ∧
    env.warnings = some (s0.context_params.warnings ++ s0.warnings) ∧
    env.chart = s0.chart ∧
    env.extra = setKey (setKey s0.extra "calculation_method" (Value.str "log"))
      "period" (Value.num 1) := by
  unfold momentumFetchData at h
  split at h
  · cases h
  · rename_i s1 h1
    split at h
    · cases h
    · rename_i s2 h2
      split at h
      · cases h
      · rename_i s3 h3
        cases h
        obtain ⟨hc1, hw1, he1, hch1⟩ := momentumTransformQuery_preserves h1
        obtain ⟨hc2, _, hw2, he2, hch2⟩ := momentumExtractData_preserves h2
        obtain ⟨hc3, _, hw3, hch3, he3⟩ := momentumTransformData_preserves h3
        refine ⟨?_, ?_, ?_, ?_⟩ <;>
          simp [hc1, hw1, he1, hch1, hc2, hw2, he2, hch2, hc3, hw3, hch3, he3]

/-- What a successful Mandelbrot Channel `fetch_data` guarantees about the
envelope. -/
theorem mandelbrotFetchData_ok {prov : ProviderFn} {kern : MandelbrotKernel}
    {s0 : CState} {env : HumblObject MandelbrotParamsInput}
    (h : mandelbrotFetchData prov kern s0 = Except.ok env) :
    env.warnings = none ∧ env.chart = none ∧ env.extra = [] ∧
    env.context_params = s0.context_params ∧
    env.results.all (rowConforms mandelbrotSchema) = true := by
  simp only [mandelbrotFetchData] at h
  split at h
  · cases h
  · rename_i s1 h1
    split at h
    · cases h
    · rename_i tbl h2
      split at h
      · cases h
      · rename_i t h3
        split at h
        · cases h
        · rename_i validated h4
          simp only [validateTable] at h4
          split at h4
          · rename_i hall
            cases h4
            cases h
            exact ⟨rfl, rfl, rfl, mandelbrotTransformQuery_preserves h1, hall⟩
          · cases h4

/-- The concrete envelope a momentum fetch produces from `ctxSingle` with
`provOk` and `kernMomBad`. -/
def envM : HumblObject MomentumParamsInput :=
  { results := [momRowBad]
    provider := "yfinance"
    warnings := some ["A", "B"]
    chart := none
    context_params := ctxSingle
    command_params := .model momentumDefaults
    extra := [("calculation_method", Value.str "log"), ("period", Value.num 1)] }

/-- The concrete envelope a Mandelbrot Channel fetch produces from
`ctxSingle` with `provOk` and `kernChanOk`. -/
def envC : HumblObject MandelbrotParamsInput :=
  { results := [chanRowGood]
    provider := "yfinance"
    warnings := none
    chart := none
    context_params := ctxSingle
    command_params := .model mandelbrotDefaults
    extra := [] }

/-! ## Claim C1 — warning merge -/

/-- C1, counterexample.  The claim quantifies over every Fetcher, but a
successful `MandelbrotChannelFetcher.fetch_data` with context warnings
`["A", "B"]` returns an envelope whose warnings field is `None` — not the
concatenation of context and fetcher-local warnings (the channel fetcher
has no local warnings attribute at all and passes `warnings=None`). -/
theorem mandelbrot_envelope_warnings_none_cex :
    ctxSingle.warnings = ["A", "B"] ∧
    mandelbrotFetchData provOk kernChanOk (mandelbrotInit ctxSingle .noneI) =
      Except.ok envC ∧
    envC.warnings = none :=
  ⟨rfl, by rfl, rfl⟩

/-- C1, amended.  For every successful `MomentumFetcher.fetch_data`, the
envelope's warnings are exactly the context warnings followed by the
fetcher-local warnings (relative order preserved) and the context's own
warning sequence is returned unchanged; for every successful
`MandelbrotChannelFetcher.fetch_data`, the envelope's warnings field is
`None`. -/
theorem warning_merge_amended (s : MState) (s' : CState)
    (prov prov' : ProviderFn) (kern : MomentumKernel)
    (kern' : MandelbrotKernel) (env : HumblObject MomentumParamsInput)
    (env' : HumblObject MandelbrotParamsInput)
    (h : momentumFetchData prov kern s = Except.ok env)
    (h' : mandelbrotFetchData prov' kern' s' = Except.ok env') :
    env.warnings = some (s.context_params.warnings ++ s.warnings) ∧
    env.context_params.warnings = s.context_params.warnings ∧
    env'.warnings = none := by
  obtain ⟨hc, hw, _, _⟩ := momentumFetchData_ok h
  obtain ⟨hw', _, _, _, _⟩ := mandelbrotFetchData_ok h'
  exact ⟨hw, by rw [hc], hw'⟩

/-- C1, witness for the amended theorem at concrete inputs. -/
theorem warning_merge_amended_witness :
    envM.warnings = some (ctxSingle.warnings ++ []) ∧
    envM.context_params.warnings = ctxSingle.warnings ∧
    envC.warnings = none := by
  have := warning_merge_amended (momentumInit ctxSingle .noneI)
    (mandelbrotInit ctxSingle .noneI) provOk provOk kernMomBad kernChanOk
    envM envC (by rfl) (by rfl)
  simpa [momentumInit, mandelbrotInit] using this

/-! ## Claim C3 — calculation metadata in `extra` -/

/-- The command mapping `{"method": "simple", "period": 5}`. -/
def mapSimple5 : MomentumParamsMap := { method := some "simple", period := some 5 }

/-- The command mapping `{"period": 0}`. -/
def mapPeriod0 : MomentumParamsMap := { method := none, period := some 0 }

/-- The channel command mapping `{"window": "3months", "live_price": True}`. -/
def chanMap : MandelbrotParamsMap :=
  { window := some "3months", rv_adjustment := none, rv_method := none,
    rs_method := none, rv_grouped_mean := none, live_price := some true }

/-- C3, counterexample.  A successful momentum fetch with command
parameters `method="simple", period=5` produces an envelope whose `extra`
records `calculation_method="log"` and `period=1` — the hard-coded
defaults of `transform_data`, not the method and period actually applied
by the kernel. -/
theorem momentum_extra_hardcoded_cex :
    (momentumFetchData provOk kernMomBad
        (momentumInit ctxSingle (.mapping mapSimple5))).map
      (fun e => (e.extra, e.command_params)) =
      Except.ok
        ([("calculation_method", Value.str "log"), ("period", Value.num 1)],
         .model { method := "simple", period := 5 }) ∧
    Value.str "log" ≠ Value.str "simple" ∧ Value.num 1 ≠ Value.num 5 :=
  ⟨by rfl, by decide, by decide⟩

/-- C3, amended.  For every successful momentum fetch from a freshly
initialized fetcher, the envelope's `extra` mapping is exactly
`calculation_method = "log", period = 1` (the hard-coded defaults),
whatever command parameters were supplied. -/
theorem momentum_extra_hardcoded_amended (ctx : ToolboxQueryParams)
    (cmd : MomentumParamsInput) (prov : ProviderFn) (kern : MomentumKernel)
    (env : HumblObject MomentumParamsInput)
    (h : momentumFetchData prov kern (momentumInit ctx cmd) = Except.ok env) :
    env.extra =
      [("calculation_method", Value.str "log"), ("period", Value.num 1)] := by
  have he := (momentumFetchData_ok h).2.2.2
  simpa [momentumInit, setKey] using he

/-- C3, witness for the amended theorem at concrete inputs. -/
theorem momentum_extra_hardcoded_witness :
    envM.extra =
      [("calculation_method", Value.str "log"), ("period", Value.num 1)] :=
  momentum_extra_hardcoded_amended ctxSingle (.noneI) provOk kernMomBad
    envM (by rfl)

/-! ## Claim C10 — chart is always None -/

/-- C10: for every successful fetch of either command, the returned
envelope's chart field is `None`: the momentum fetcher's `__init__` sets
`chart = None` and no stage writes it, and the channel fetcher passes
`chart=None` literally. -/
theorem envelope_chart_none (ctx1 ctx2 : ToolboxQueryParams)
    (cmd1 : MomentumParamsInput) (cmd2 : MandelbrotParamsInput)
    (prov1 prov2 : ProviderFn) (kern1 : MomentumKernel)
    (kern2 : MandelbrotKernel) (env1 : HumblObject MomentumParamsInput)
    (env2 : HumblObject MandelbrotParamsInput)
    (h1 : momentumFetchData prov1 kern1 (momentumInit ctx1 cmd1) = Except.ok env1)
    (h2 : mandelbrotFetchData prov2 kern2 (mandelbrotInit ctx2 cmd2) = Except.ok env2) :
    env1.chart = none ∧ env2.chart = none := by
  have hch1 := (momentumFetchData_ok h1).2.2.1
  have hch2 := (mandelbrotFetchData_ok h2).2.1
  simp [momentumInit] at hch1
  exact ⟨hch1, hch2⟩

/-- C10, witness at concrete inputs. -/
theorem envelope_chart_none_witness :
    envM.chart = none ∧ envC.chart = none :=
  envelope_chart_none ctxSingle ctxSingle (.noneI) (.noneI) provOk provOk
    kernMomBad kernChanOk envM envC (by rfl) (by rfl)

/-! ## Claim C2 — transform_data error wrapping -/

/-- C2: evaluating the code at the failing inputs.  A momentum fetch whose
kernel raises does not surface a `TransformError`/`HumblDataError`
carrying the original message: the `except` block's
`raise HumblDataError(...)` references a name that `momentum.py` never
imports, so a `NameError` escapes and the original message `boom` is
lost.  A channel fetch whose kernel raises has no `try` at all, so the
raw kernel exception escapes `transform_data` unwrapped. -/
theorem transform_data_error_wrapping_eval :
    momentumFetchData provOk kernMomFail (momentumInit ctxSingle .noneI) =
      Except.error (Exc.nameError "name HumblDataError is not defined") ∧
    mandelbrotFetchData provOk kernChanFail (mandelbrotInit ctxSingle .noneI) =
      Except.error (Exc.kernelError "boom") :=
  ⟨by rfl, by rfl⟩

/-! ## Claim C4 — extraction errors -/

/-- C4, counterexample.  A momentum fetch whose provider call raises
propagates the provider exception itself: the result is the raw
`providerError`, not an `ExtractionError` wrapper (no such wrapping
exists anywhere in the source; there is no try/except around the
provider call). -/
theorem extraction_error_cex :
    momentumFetchData provFail kernMomBad (momentumInit ctxSingle .noneI) =
      Except.error (Exc.providerError "network down") ∧
    Exc.providerError "network down" ≠ Exc.extractionError "network down" :=
  ⟨by rfl, by decide⟩

/-- C4, amended.  For every fetch whose command parameters validate and
whose provider call raises `e`, both fetchers propagate `e` unchanged
(no `ExtractionError` wrapping) and no `HumblObject` is constructed. -/
theorem extraction_error_amended (e : Exc) (s s1 : MState) (s' s1' : CState)
    (kern : MomentumKernel) (kern' : MandelbrotKernel)
    (h : momentumTransformQuery s = Except.ok s1)
    (h' : mandelbrotTransformQuery s' = Except.ok s1') :
    momentumFetchData (fun _ _ _ _ => Except.error e) kern s =
      Except.error e ∧
    mandelbrotFetchData (fun _ _ _ _ => Except.error e) kern' s' =
      Except.error e := by
  constructor
  · unfold momentumFetchData
    rw [h]
    rfl
  · unfold mandelbrotFetchData
    rw [h']
    rfl

/-- C4, witness for the amended theorem at concrete inputs. -/
theorem extraction_error_amended_witness :
    momentumFetchData (fun _ _ _ _ => Except.error (Exc.providerError "network down"))
        kernMomBad (momentumInit ctxSingle .noneI) =
      Except.error (Exc.providerError "network down") ∧
    mandelbrotFetchData (fun _ _ _ _ => Except.error (Exc.providerError "network down"))
        kernChanOk (mandelbrotInit ctxSingle .noneI) =
      Except.error (Exc.providerError "network down") :=
  extraction_error_amended (Exc.providerError "network down")
    (momentumInit ctxSingle .noneI)
    { momentumInit ctxSingle .noneI with command_params := .model momentumDefaults }
    (mandelbrotInit ctxSingle .noneI)
    { mandelbrotInit ctxSingle .noneI with command_params := .model mandelbrotDefaults }
    kernMomBad kernChanOk (by rfl) (by rfl)

/-! ## Claim C5 — schema validation before the envelope -/

/-- C5, counterexample.  The momentum fetcher's schema validation is
commented out in the source, so a successful momentum fetch places the
kernel output in the envelope unvalidated: here the single result row has
an unknown column `foo` and lacks the declared `example_column`, violates
the `MomentumData` schema, and is returned anyway instead of raising a
hard error. -/
theorem momentum_no_validation_cex :
    (momentumFetchData provOk kernMomBad (momentumInit ctxSingle .noneI)).map
      (fun e => e.results) = Except.ok [momRowBad] ∧
    rowConforms momentumSchema momRowBad = false ∧
    validateTable momentumSchema [momRowBad] =
      Except.error (Exc.schemaError "DataModel schema validation failed") :=
  ⟨by rfl, by rfl, by rfl⟩

/-- C5, amended.  Only the Mandelbrot Channel fetcher validates its
results before the envelope is constructed: every row of a successful
channel fetch's results satisfies the declared `MandelbrotChannelData`
schema (and a nonconforming or unknown column fails validation); the
momentum fetcher performs no schema validation at all. -/
theorem mandelbrot_validates_results_amended (prov : ProviderFn)
    (kern : MandelbrotKernel) (s : CState)
    (env : HumblObject MandelbrotParamsInput)
    (h : mandelbrotFetchData prov kern s = Except.ok env) :
    env.results.all (rowConforms mandelbrotSchema) = true ∧
    validateTable mandelbrotSchema env.results = Except.ok env.results := by
  have hall := (mandelbrotFetchData_ok h).2.2.2.2
  exact ⟨hall, by simp [validateTable, hall]⟩

/-- C5, witness for the amended theorem at concrete inputs. -/
theorem mandelbrot_validates_results_witness :
    envC.results.all (rowConforms mandelbrotSchema) = true ∧
    validateTable mandelbrotSchema envC.results = Except.ok envC.results :=
  mandelbrot_validates_results_amended provOk kernChanOk
    (mandelbrotInit ctxSingle .noneI) envC (by rfl)

/-! ## Claim C6 — symbol normalization -/

/-- C6: evaluating the code at the failing input.  The two valid input
forms do normalize identically (comma string and collection both yield
`["AAPL", "MSFT"]`), but a collection containing a non-string is not
rejected with the declared validation error: evaluating
`item.strip()` inside the `all(...)` check raises `AttributeError`
before the unreachable
`ValueError("Every element in symbol list must be a str")` can fire. -/
theorem upper_symbol_nonstring_eval :
    upper_symbol (.str "aapl, msft") = Except.ok ["AAPL", "MSFT"] ∧
    upper_symbol (.list [.str "aapl", .str " msft"]) =
      Except.ok ["AAPL", "MSFT"] ∧
    upper_symbol (.list [.int 1, .str "aapl"]) =
      Except.error (Exc.attributeError "int object has no attribute strip") ∧
    Exc.attributeError "int object has no attribute strip" ≠
      Exc.valueError "Every element in symbol list must be a str" :=
  ⟨by rfl, by rfl, by rfl, by decide⟩

/-! ## Claim C7 — period below 1 fails fast -/

/-- Is a pipeline result a raised `ValidationError`? -/
def isValidationError {α : Type} : Except Exc α → Bool
  | .error (.validationError _) => true
  | _ => false

theorem momentum_validate_period_lt {m : MomentumParamsMap} {p : Int}
    (hm : m.period = some p) (hp : p < 1) :
    isValidationError (MomentumQueryParams.validate m) = true := by
  simp only [MomentumQueryParams.validate, hm, Option.getD_some]
  split
  · rw [if_neg (by omega : ¬ (1:Int) ≤ p)]
    rfl
  · rfl

/-- C7: for every momentum command mapping whose `period` is below 1,
`fetch_data` raises `ValidationError` from the `transform_query` stage
for every provider function alike — extraction is never reached, so no
provider call can have been made. -/
theorem momentum_period_fail_fast (ctx : ToolboxQueryParams)
    (m : MomentumParamsMap) (p : Int) (prov : ProviderFn)
    (kern : MomentumKernel) (hm : m.period = some p) (hp : p < 1) :
    isValidationError
      (momentumFetchData prov kern (momentumInit ctx (.mapping m))) = true := by
  have hempty : m.isEmpty = false := by
    simp [MomentumParamsMap.isEmpty, hm]
  have hv := momentum_validate_period_lt hm hp
  unfold momentumFetchData momentumTransformQuery momentumInit
  simp only [hempty, Bool.false_eq_true, if_false]
  revert hv
  cases MomentumQueryParams.validate m with
  | ok q => intro hv; cases hv
  | error e =>
      intro hv
      cases e <;> first | rfl | cases hv

/-- C7, witness: the mapping `{"period": 0}` with an arbitrary provider
and kernel. -/
theorem momentum_period_fail_fast_witness :
    (mapPeriod0.period = some 0) ∧ ((0:Int) < 1) ∧
    isValidationError
      (momentumFetchData provOk kernMomBad
        (momentumInit ctxSingle (.mapping mapPeriod0))) = true :=
  ⟨rfl, by decide,
    momentum_period_fail_fast ctxSingle mapPeriod0 0 provOk kernMomBad rfl
      (by decide)⟩

/-! ## Claim C8 — single-symbol column injection -/

/-- C8: when exactly one symbol was requested, both fetchers inject a
constant `symbol` column equal to the requested symbol into the
provider's table (every resulting row carries it); with any other number
of symbols the table passes through with no injection (the channel
fetcher still drops `dividends`/`stock_splits` in both cases). -/
theorem extract_symbol_injection (prov : ProviderFn) (s : MState)
    (s' : CState) (tbl tbl' : Table) (sym sym' : String)
    (h : prov s.context_params.symbols s.context_params.start_date
        s.context_params.end_date s.context_params.provider = Except.ok tbl)
    (h' : prov s'.context_params.symbols s'.context_params.start_date
        s'.context_params.end_date s'.context_params.provider = Except.ok tbl') :
    (s.context_params.symbols = [sym] →
      momentumExtractData prov s = Except.ok
        { s with
          equity_historical_data := tbl.map (setColumn "symbol" (Value.str sym)) } ∧
      ∀ r ∈ tbl.map (setColumn "symbol" (Value.str sym)),
        lookupCol r "symbol" = some (Value.str sym)) ∧
    (s.context_params.symbols.length ≠ 1 →
      momentumExtractData prov s = Except.ok
        { s with equity_historical_data := tbl }) ∧
    (s'.context_params.symbols = [sym'] →
      mandelbrotExtractData prov s' = Except.ok
        ((tbl'.map (dropColumns ["dividends", "stock_splits"])).map
          (setColumn "symbol" (Value.str sym'))) ∧
      ∀ r ∈ (tbl'.map (dropColumns ["dividends", "stock_splits"])).map
          (setColumn "symbol" (Value.str sym')),
        lookupCol r "symbol" = some (Value.str sym')) ∧
    (s'.context_params.symbols.length ≠ 1 →
      mandelbrotExtractData prov s' = Except.ok
        (tbl'.map (dropColumns ["dividends", "stock_splits"]))) := by
  refine ⟨?_, ?_, ?_, ?_⟩
  · intro hs
    constructor
    · unfold momentumExtractData
      rw [h, hs]
    · intro r hr
      obtain ⟨r0, _, rfl⟩ := List.mem_map.mp hr
      exact lookupCol_setColumn _ _ r0
  · intro hlen
    unfold momentumExtractData
    rw [h]
    rcases hsyms : s.context_params.symbols with _ | ⟨a, _ | ⟨b, t⟩⟩
    · rfl
    · exact absurd (by rw [hsyms]; rfl) hlen
    · rfl
  · intro hs
    constructor
    · unfold mandelbrotExtractData
      rw [h', hs]
    · intro r hr
      obtain ⟨r0, _, rfl⟩ := List.mem_map.mp hr
      exact lookupCol_setColumn _ _ r0
  · intro hlen
    unfold mandelbrotExtractData
    rw [h']
    rcases hsyms : s'.context_params.symbols with _ | ⟨a, _ | ⟨b, t⟩⟩
    · rfl
    · exact absurd (by rw [hsyms]; rfl) hlen
    · rfl

/-- C8, witness: the single-symbol context `["AAPL"]` and the two-symbol
context `["AAPL", "MSFT"]`, with the concrete provider table. -/
theorem extract_symbol_injection_witness :
    (momentumExtractData provOk (momentumInit ctxSingle .noneI) = Except.ok
      { momentumInit ctxSingle .noneI with
        equity_historical_data := [rawRow].map (setColumn "symbol" (Value.str "AAPL")) } ∧
     ∀ r ∈ [rawRow].map (setColumn "symbol" (Value.str "AAPL")),
       lookupCol r "symbol" = some (Value.str "AAPL")) ∧
    momentumExtractData provOk (momentumInit ctxMulti .noneI) = Except.ok
      { momentumInit ctxMulti .noneI with equity_historical_data := [rawRow] } ∧
    mandelbrotExtractData provOk (mandelbrotInit ctxMulti .noneI) = Except.ok
      ([rawRow].map (dropColumns ["dividends", "stock_splits"])) := by
  refine ⟨?_, ?_, ?_⟩
  · exact (extract_symbol_injection provOk (momentumInit ctxSingle .noneI)
      (mandelbrotInit ctxSingle .noneI) [rawRow] [rawRow] "AAPL" "AAPL"
      (by rfl) (by rfl)).1 rfl
  · exact (extract_symbol_injection provOk (momentumInit ctxMulti .noneI)
      (mandelbrotInit ctxMulti .noneI) [rawRow] [rawRow] "AAPL" "AAPL"
      (by rfl) (by rfl)).2.1 (by decide)
  · exact (extract_symbol_injection provOk (momentumInit ctxMulti .noneI)
      (mandelbrotInit ctxMulti .noneI) [rawRow] [rawRow] "AAPL" "AAPL"
      (by rfl) (by rfl)).2.2.2 (by decide)

/-! ## Claim C9 — transform_query contract -/

/-- C9: after a successful `transform_query` the fetcher's
`command_params` is a validated model instance (defaults for a falsy
input, re-validated raw values for a mapping), and success is only
possible for those two input forms: a fetcher constructed with an
already-built model instance fails the `**` keyword-unpacking with
`TypeError` instead of re-validating, for both commands. -/
theorem transform_query_contract :
    (∀ s s' : MState, momentumTransformQuery s = Except.ok s' →
      ∃ p, s'.command_params = .model p ∧ p.Valid) ∧
    (∀ (s : MState) (q : MomentumQueryParams),
      s.command_params = .model q →
      momentumTransformQuery s = Except.error
        (Exc.typeError "argument of type MomentumQueryParams is not a mapping")) ∧
    (∀ s s' : CState, mandelbrotTransformQuery s = Except.ok s' →
      ∃ p, s'.command_params = .model p ∧ p.Valid) ∧
    (∀ (s : CState) (q : MandelbrotChannelQueryParams),
      s.command_params = .model q →
      mandelbrotTransformQuery s = Except.error
        (Exc.typeError "argument of type MandelbrotChannelQueryParams is not a mapping")) := by
  refine ⟨?_, ?_, ?_, ?_⟩
  · intro s s' h
    unfold momentumTransformQuery at h
    split at h
    · cases h; exact ⟨momentumDefaults, rfl, momentumDefaults_valid⟩
    · split at h
      · cases h; exact ⟨momentumDefaults, rfl, momentumDefaults_valid⟩
      · split at h
        · rename_i p hval
          cases h
          exact ⟨p, rfl, momentum_validate_valid hval⟩
        · cases h
    · cases h
  · intro s q hq
    unfold momentumTransformQuery
    rw [hq]
  · intro s s' h
    unfold mandelbrotTransformQuery at h
    split at h
    · cases h; exact ⟨mandelbrotDefaults, rfl, mandelbrotDefaults_valid⟩
    · split at h
      · cases h; exact ⟨mandelbrotDefaults, rfl, mandelbrotDefaults_valid⟩
      · split at h
        · rename_i p hval
          cases h
          exact ⟨p, rfl, mandelbrot_validate_valid hval⟩
        · cases h
    · cases h
  · intro s q hq
    unfold mandelbrotTransformQuery
    rw [hq]

/-- The momentum fetcher state after `transform_query` on the
`{"method": "simple", "period": 5}` mapping. -/
def stMomOut : MState :=
  { momentumInit ctxSingle (.mapping mapSimple5) with
    command_params := .model { method := "simple", period := 5 } }

/-- The channel fetcher state after `transform_query` on the
`{"window": "3months", "live_price": True}` mapping. -/
def stChanOut : CState :=
  { mandelbrotInit ctxSingle (.mapping chanMap) with
    command_params := .model
      { window := "3mo", rv_adjustment := true, rv_method := "std",
        rs_method := "RS", rv_grouped_mean := false, live_price := true } }

/-- C9, witness: both success cases at concrete mappings and both
`TypeError` cases at concrete model-instance inputs. -/
theorem transform_query_contract_witness :
    (∃ p, stMomOut.command_params = .model p ∧ p.Valid) ∧
    momentumTransformQuery (momentumInit ctxSingle (.model momentumDefaults)) =
      Except.error
        (Exc.typeError "argument of type MomentumQueryParams is not a mapping") ∧
    (∃ p, stChanOut.command_params = .model p ∧ p.Valid) ∧
    mandelbrotTransformQuery (mandelbrotInit ctxSingle (.model mandelbrotDefaults)) =
      Except.error
        (Exc.typeError "argument of type MandelbrotChannelQueryParams is not a mapping") :=
  ⟨transform_query_contract.1 (momentumInit ctxSingle (.mapping mapSimple5))
      stMomOut (by rfl),
   transform_query_contract.2.1 (momentumInit ctxSingle (.model momentumDefaults))
      momentumDefaults rfl,
   transform_query_contract.2.2.1 (mandelbrotInit ctxSingle (.mapping chanMap))
      stChanOut (by rfl),
   transform_query_contract.2.2.2 (mandelbrotInit ctxSingle (.model mandelbrotDefaults))
      mandelbrotDefaults rfl⟩

end Humbl
